import Mathlib

/-!
Verification development for the "unhinged side quest research agent"
repository: a Next.js chat application in which an orchestrating chat agent
(`src/app/agents/chat/agent.ts`) coordinates web search and three wrapped
sub-agents (fact-checker, summarizer, random-tangents), streams the result to
a browser client (`src/app/api/chat/route.ts`), and the client
(`src/app/page.tsx`) reconstructs sources, tool-activity labels, a search
log and a tangent counter from the streamed message parts.

The TypeScript functions relevant to the claims are shallowly embedded as
executable Lean definitions.  JavaScript string truthiness (`s || d`) is
modelled explicitly; machine-level concerns (floats, Dates) do not arise in
the verified logic (timestamps are carried opaquely as `Nat`).
-/

namespace Research

/-- JavaScript `a || b` on strings: the empty string is falsy. -/
def jsOr (s d : String) : String := if s = "" then d else s

/-! ## API route `POST` handler (src/app/api/chat/route.ts)

The handler body is a single try/catch: on a successfully parsed body it
returns the agent UI stream response; if anything throws before streaming
starts (e.g. a malformed body) it returns
`new Response(JSON.stringify({ error: error.message || "Internal server error" }), { status: 500, ... })`.
The thrown JS error is modelled by its `message` field, the request by the
result of `await req.json()`. -/

/-- A JavaScript `Error` as observed by the catch block: only its `message`
field is read (`error.message || "Internal server error"`). -/
structure JsError where
  message : String
deriving DecidableEq, Repr

/-- A UI message as received in the request body.  Only its presence matters
to the route handler, which forwards the parsed list unchanged to
`createAgentUIStreamResponse`. -/
structure ReqMessage where
  id : String
  role : String
  content : String
deriving DecidableEq, Repr

/-- The two shapes of response the `POST` handler can produce: the streamed
agent response (success path) or a non-streamed JSON error body with a
status code (catch path). -/
inductive PostResponse where
  | stream (uiMessages : List ReqMessage)
  | json (errorMessage : String) (status : Nat)
deriving DecidableEq, Repr

/-- Embedding of `POST` from src/app/api/chat/route.ts.  The argument is the
outcome of everything inside the `try` up to the point a response is built:
`Except.ok` carries the parsed `messages`, `Except.error` the thrown error
caught by the catch block. -/
def POSTRoute (req : Except JsError (List ReqMessage)) : PostResponse :=
  match req with
  | .ok messages => .stream messages
  | .error e => .json (jsOr e.message "Internal server error") 500

/-! ## Sub-agent tool `execute` functions (abort-signal propagation)

Each wrapped sub-agent tool's `execute` receives `{ abortSignal }` as its
second argument and calls `<agent>.generate({ prompt, abortSignal })`.
The embedding records the argument object passed to that `generate` call;
the abort signal itself is an opaque token. -/

/-- An abort token: only its identity matters to the propagation claim. -/
def AbortToken : Type := Nat

/-- The argument object of a nested `agent.generate({ prompt, abortSignal })`
call made inside a tool's `execute`. -/
structure GenerateArgs where
  prompt : String
  abortSignal : Option AbortToken

/-- Embedding of `factCheckTool.execute` (fact-checker agent module): the
`generate` call it performs on `factCheckerAgent`. -/
def factCheckExecuteGenerateCall (researchNotes : String)
    (abortSignal : Option AbortToken) : GenerateArgs :=
  { prompt := "Please fact-check the following research notes:\n\n" ++ researchNotes
    abortSignal := abortSignal }

/-- Embedding of `findRandomTangentsTool.execute`
(src/app/agents/random-tangents/agent.ts): the `generate` call it performs
on `randomTangentsAgent`. -/
def findRandomTangentsExecuteGenerateCall (mainTopic researchNotes : String)
    (abortSignal : Option AbortToken) : GenerateArgs :=
  { prompt := "Main topic: " ++ mainTopic ++ "\n\nResearch notes:\n" ++ researchNotes ++
      "\n\nPlease find interesting tangents - facts that are kind of related but off-subject. Use tavilySearch to discover fascinating side topics and write about them enthusiastically!"
    abortSignal := abortSignal }

/-- Embedding of `summarizeTool.execute` (summarizer agent module): the
`generate` call it performs on `summarizerAgent`.  The JS ternary
`originalQuestion ? ... : ...` treats an empty string as absent. -/
def summarizeExecuteGenerateCall (factCheckedFindings : String)
    (originalQuestion : Option String)
    (abortSignal : Option AbortToken) : GenerateArgs :=
  { prompt :=
      match originalQuestion with
      | some q =>
        if q = "" then
          "Fact-checked findings:\n" ++ factCheckedFindings ++
            "\n\nPlease create a summary using only verified claims."
        else
          "Original question: " ++ q ++ "\n\nFact-checked findings:\n" ++
            factCheckedFindings ++
            "\n\nPlease create a summary using only verified claims."
      | none =>
        "Fact-checked findings:\n" ++ factCheckedFindings ++
          "\n\nPlease create a summary using only verified claims."
    abortSignal := abortSignal }

/-! ## Bounded agent loop (step budgets)

Modelled from the spec: the `ToolLoopAgent` round-trip loop itself lives in
the ai SDK, not under src/; spec section 3 ("Step Budget") and section 4.1
describe it: a per-agent integer budget decremented once per model
round-trip; the loop terminates normally when the model emits a final
answer with no tool calls, or when the budget is reached — reaching the
budget is not an error and yields whatever text exists.  The budget
constants are taken from the source: `stopWhen: stepCountIs(15)` in
src/app/agents/chat/agent.ts and `stopWhen: stepCountIs(5)` in each of the
three sub-agent modules. -/

/-- One model round-trip's outcome, as decided by the (opaque) language
model: either a final text answer with no pending tool calls, or a set of
tool calls accompanied by interleaved text. -/
inductive ModelReply where
  | finalText (text : String)
  | callTools (calls : List String) (text : String)

/-- Result of a bounded loop run.  There is no error constructor: both
termination paths (model finished, budget reached) are normal. -/
structure RunResult where
  text : String
  rounds : Nat
  hitBudget : Bool
deriving DecidableEq, Repr

/-- Modelled from the spec: the bounded tool-calling loop.  `steps` counts
model round-trips performed so far, `fuel` is the remaining budget; each
iteration with fuel left performs exactly one round-trip (one query of the
model oracle). -/
def runToolLoopAux (oracle : Nat → ModelReply) : Nat → Nat → String → RunResult
  | steps, 0, acc => { text := acc, rounds := steps, hitBudget := true }
  | steps, fuel + 1, acc =>
    match oracle steps with
    | .finalText t => { text := acc ++ t, rounds := steps + 1, hitBudget := false }
    | .callTools _ t => runToolLoopAux oracle (steps + 1) fuel (acc ++ t)

/-- Modelled from the spec: run a bounded agent loop with the given step
budget against a model oracle. -/
def runToolLoop (oracle : Nat → ModelReply) (budget : Nat) : RunResult :=
  runToolLoopAux oracle 0 budget ""

/-- `stopWhen: stepCountIs(15)` in src/app/agents/chat/agent.ts. -/
def chatAgentStopSteps : Nat := 15

/-- `stopWhen: stepCountIs(5)` on `factCheckerAgent`. -/
def factCheckerStopSteps : Nat := 5

/-- `stopWhen: stepCountIs(5)` on `summarizerAgent`. -/
def summarizerStopSteps : Nat := 5

/-- `stopWhen: stepCountIs(5)` on `randomTangentsAgent`
(src/app/agents/random-tangents/agent.ts). -/
def randomTangentsStopSteps : Nat := 5

/-- One run of the orchestrator (chat) agent loop. -/
def runChatAgentLoop (oracle : Nat → ModelReply) : RunResult :=
  runToolLoop oracle chatAgentStopSteps

/-- One run of the fact-checker sub-agent loop. -/
def runFactCheckerLoop (oracle : Nat → ModelReply) : RunResult :=
  runToolLoop oracle factCheckerStopSteps

/-- One run of the summarizer sub-agent loop. -/
def runSummarizerLoop (oracle : Nat → ModelReply) : RunResult :=
  runToolLoop oracle summarizerStopSteps

/-- One run of the random-tangents sub-agent loop. -/
def runRandomTangentsLoop (oracle : Nat → ModelReply) : RunResult :=
  runToolLoop oracle randomTangentsStopSteps

/-! ## Tool-call part lifecycle (streamed state machine)

Modelled from the spec: the streaming transport that drives tool-part state
lives in the ai SDK, not under src/; spec section 3 defines the lifecycle
`input-streaming → input-available → output-available | output-error`,
monotonic and one-directional, with both output states terminal. -/

/-- The state of a tool-call part as observed by the client. -/
inductive ToolPartState where
  | inputStreaming
  | inputAvailable
  | outputAvailable
  | outputError
deriving DecidableEq, Repr

/-- Modelled from the spec: the allowed single-step state advances of a
tool-call part along its lifecycle path. -/
def advancesTo : ToolPartState → ToolPartState → Bool
  | .inputStreaming, .inputAvailable => true
  | .inputAvailable, .outputAvailable => true
  | .inputAvailable, .outputError => true
  | _, _ => false

/-- Position of a state along the lifecycle path; both output states sit at
the terminal position. -/
def stateRank : ToolPartState → Nat
  | .inputStreaming => 0
  | .inputAvailable => 1
  | .outputAvailable => 2
  | .outputError => 2

/-! ## Client message parts (src/app/page.tsx)

The client sees each message as an ordered list of parts.  A part whose
`type` starts with `"tool-"` is a tool part; its tool name is the `type`
with the leading `"tool-"` removed (`part.type.replace("tool-", "")`
replaces the first occurrence, which here is the prefix).  Absent or empty
JS string fields are modelled as `""` — both are falsy under every
operation the source applies to them (`||` and `if`). -/

/-- One element of a tool output's `results` array (Tavily search result
shape): only `url` and `title` are read. -/
structure RawResult where
  url : String
  title : String
deriving DecidableEq, Repr

/-- The `output` field of a tool part, as discriminated by
`extractSourcesFromMessage`: falsy, an object carrying a `results` array,
an array itself, or a plain object with `url`/`title`. -/
inductive ToolOutput where
  | null
  | withResults (results : List RawResult)
  | arrayOutput (results : List RawResult)
  | objectOutput (url : String) (title : String)
deriving DecidableEq, Repr

/-- A message part as consumed by src/app/page.tsx. -/
inductive UIPart where
  | text (text : String)
  | sourceUrl (url : String) (title : String)
  | tool (name : String) (state : ToolPartState) (output : ToolOutput)
  | stepStart
deriving DecidableEq, Repr

/-- A client-side chat message. -/
structure UIMessage where
  id : String
  role : String
  parts : List UIPart
deriving DecidableEq, Repr

/-- The `SourceInfo` interface of src/app/page.tsx. -/
structure SourceInfo where
  url : String
  title : String
deriving DecidableEq, Repr

/-- Sources contributed by one tool-output `results` element: pushed only
when `result.url` is truthy, with title `result.title || result.url || "Source"`. -/
def resultSources (r : RawResult) : List SourceInfo :=
  if r.url = "" then []
  else [{ url := r.url, title := jsOr r.title (jsOr r.url "Source") }]

/-- Sources contributed by a tool part's output, following the cascade in
`extractSourcesFromMessage`: falsy output contributes nothing; an object
with a `results` array contributes its results; an array output contributes
its elements; a plain object contributes itself when its `url` is truthy. -/
def outputSources : ToolOutput → List SourceInfo
  | .null => []
  | .withResults rs => (rs.map resultSources).flatten
  | .arrayOutput rs => (rs.map resultSources).flatten
  | .objectOutput url title =>
    if url = "" then []
    else [{ url := url, title := jsOr title (jsOr url "Source") }]

/-- Sources contributed by one part: `source-url` parts push
`{ url: part.url || "", title: part.title || part.url || "Source" }`;
tool parts contribute via their output; other parts contribute nothing. -/
def partSources : UIPart → List SourceInfo
  | .sourceUrl url title => [{ url := jsOr url "", title := jsOr title (jsOr url "Source") }]
  | .tool _ _ output => outputSources output
  | _ => []

/-- The source list of a message before deduplication, in part order
(the `sources` array built by the `forEach` in `extractSourcesFromMessage`). -/
def messageRawSources (m : UIMessage) : List SourceInfo :=
  (m.parts.map partSources).flatten

/-- JS `Set<string>.has` over the seen-URL set, modelled as a list. -/
def seenHas (u : String) : List String → Bool
  | [] => false
  | s :: rest => s == u || seenHas u rest

/-- The final filter of `extractSourcesFromMessage`: keep a source only if
its URL has not been seen, recording each kept URL. -/
def dedupeByUrlAux (seen : List String) : List SourceInfo → List SourceInfo
  | [] => []
  | s :: rest =>
    if seenHas s.url seen then dedupeByUrlAux seen rest
    else s :: dedupeByUrlAux (s.url :: seen) rest

/-- Embedding of `extractSourcesFromMessage` (src/app/page.tsx): collect
sources from all parts in order, then deduplicate by URL keeping the first
occurrence. -/
def extractSourcesFromMessage (m : UIMessage) : List SourceInfo :=
  dedupeByUrlAux [] (messageRawSources m)

/-! ## Current tool activity (src/app/page.tsx, `getCurrentToolActivity`) -/

/-- The display-name ternary chain of `getCurrentToolActivity`. -/
def activityDisplayName (toolName : String) : String :=
  if toolName = "tavilySearch" then "Searching web"
  else if toolName = "factCheck" then "Fact-checking"
  else if toolName = "summarize" then "Summarizing"
  else if toolName = "findRandomTangents" then "Finding tangents"
  else toolName

/-- The state disjunction `state === "input-available" || state === "input-streaming"`. -/
def isInputState : ToolPartState → Bool
  | .inputAvailable => true
  | .inputStreaming => true
  | _ => false

/-- The `activeToolParts` filter: `part.type.startsWith("tool-")` and state
among `input-available`, `input-streaming`, `output-available`.  For
non-tool parts `part.state` is undefined and every comparison is false. -/
def activeToolFilter : UIPart → Bool
  | .tool _ .inputAvailable _ => true
  | .tool _ .inputStreaming _ => true
  | .tool _ .outputAvailable _ => true
  | _ => false

/-- The `forEach` over the filtered parts: push the display name only for
parts still in an input state. -/
def pushActivities : List UIPart → List String
  | [] => []
  | .tool n s _ :: rest =>
    if isInputState s then activityDisplayName n :: pushActivities rest
    else pushActivities rest
  | _ :: rest => pushActivities rest

/-- Embedding of `getCurrentToolActivity` (src/app/page.tsx): empty message
list yields no activities; otherwise only the last message's parts are
scanned. -/
def getCurrentToolActivity (messages : List UIMessage) : List String :=
  match messages.getLast? with
  | none => []
  | some lastMessage => pushActivities (lastMessage.parts.filter activeToolFilter)

/-- Stated from the claim's words, for comparison with the source embedding:
a part is in flight when it is a tool part in state `input-streaming` or
`input-available`. -/
def claimInFlight : UIPart → Bool
  | .tool _ .inputStreaming _ => true
  | .tool _ .inputAvailable _ => true
  | _ => false

/-- Stated from the claim's words: the tool-name-to-label mapping. -/
def claimDisplayName (toolName : String) : String :=
  if toolName = "tavilySearch" then "Searching web"
  else if toolName = "factCheck" then "Fact-checking"
  else if toolName = "summarize" then "Summarizing"
  else if toolName = "findRandomTangents" then "Finding tangents"
  else toolName

/-- Stated from the claim's words: the label of one in-flight tool part. -/
def claimPartLabel : UIPart → String
  | .tool n _ _ => claimDisplayName n
  | _ => ""

/-- Stated from the claim's words: one label per in-flight tool part of the
last message; the empty list for an empty message list. -/
def getCurrentToolActivityClaim (messages : List UIMessage) : List String :=
  match messages.getLast? with
  | none => []
  | some lastMessage => (lastMessage.parts.filter claimInFlight).map claimPartLabel

/-! ## Text parsing effect (src/app/page.tsx, assistant-message effect)

The client effect scans every assistant text part with literal substring
gates and regexes.  The regexes used are, verbatim:

  `/Probably irrelevant but interesting[:\-]?\s*([\s\S]+?)(?=\n\n|\nSearches|$)/`
  `/got distracted|side quest|tangent/gi`
  `/Searches I ran[:\-]?\s*([\s\S]+?)(?=\n\n|$)/`

and each captured section is split into lines, bullet lines (`-` or `•`
after trimming) are stripped of their bullet prefix and trimmed.  The
embedding works over `List Char` with JS whitespace semantics. -/

/-- JS `\s` on the ASCII range (the only characters these inputs use). -/
def jsSpace (c : Char) : Bool :=
  c = ' ' || c = '\t' || c = '\n' || c = '\r' || c = '\x0b' || c = '\x0c'

/-- Whether `pat` is a prefix of `s`. -/
def isPrefixList : List Char → List Char → Bool
  | [], _ => true
  | _ :: _, [] => false
  | p :: ps, c :: cs => p == c && isPrefixList ps cs

/-- JS `String.includes`: whether `pat` occurs in `s`. -/
def containsSub (s pat : List Char) : Bool :=
  match s with
  | [] => isPrefixList pat []
  | c :: rest => isPrefixList pat (c :: rest) || containsSub rest pat

/-- The suffix of `s` after the first occurrence of `pat`, if any. -/
def afterFirst (pat : List Char) : List Char → Option (List Char)
  | [] => if isPrefixList pat [] then some [] else none
  | c :: rest =>
    if isPrefixList pat (c :: rest) then some (List.drop pat.length (c :: rest))
    else afterFirst pat rest

/-- The lazy part of the capture: characters up to (excluding) the earliest
position where one of the terminator patterns begins, or the whole input if
none occurs. -/
def takeUntilTerm (terms : List (List Char)) : List Char → List Char
  | [] => []
  | c :: rest =>
    if terms.any (fun t => isPrefixList t (c :: rest)) then []
    else c :: takeUntilTerm terms rest

/-- The captured group of `/<header>[:\-]?\s*([\s\S]+?)(?=<terms>|$)/`
applied to `s`: find the first occurrence of the literal header, consume an
optional `:` or `-`, consume the maximal whitespace run, then capture
lazily up to the earliest terminator occurrence (the capture is at least
one character long, so the terminator test starts after its first
character).  When everything after the header is whitespace or punctuation
the regex backtracks into a capture consisting of that single residual
character, which contains no bullet line; returning `none` there is
emission-equivalent for every consumer in the source. -/
def extractSection (header : List Char) (terms : List (List Char))
    (s : List Char) : Option (List Char) :=
  match afterFirst header s with
  | none => none
  | some rest =>
    let rest1 := match rest with
      | c :: cs => if c = ':' || c = '-' then cs else c :: cs
      | [] => []
    match rest1.dropWhile jsSpace with
    | [] => none
    | c :: cs => some (c :: takeUntilTerm terms cs)

/-- JS `String.split` on a character predicate, preserving empty segments. -/
def splitChars (isSep : Char → Bool) : List Char → List (List Char)
  | [] => [[]]
  | c :: rest =>
    match splitChars isSep rest with
    | [] => [[]]
    | g :: gs => if isSep c then [] :: g :: gs else (c :: g) :: gs

/-- JS `String.trim` (both ends, JS whitespace). -/
def trimJS (l : List Char) : List Char :=
  ((l.dropWhile jsSpace).reverse.dropWhile jsSpace).reverse

/-- `line.replace(/^[-•]\s*/, "")`: strip one leading bullet character and
the whitespace after it, if the line starts with a bullet. -/
def stripBullet (l : List Char) : List Char :=
  match l with
  | c :: rest => if c = '-' || c = '•' then rest.dropWhile jsSpace else c :: rest
  | [] => []

/-- The bullet-item pipeline applied to a captured section: split into
lines, keep lines whose trimmed form starts with `-` or `•`, strip the
bullet prefix of the raw line and trim, keep non-empty results. -/
def bulletItems (body : List Char) : List (List Char) :=
  (((splitChars (fun c => c = '\n') body).filter
      (fun line =>
        isPrefixList ['-'] (trimJS line) || isPrefixList ['•'] (trimJS line))).map
    (fun line => trimJS (stripBullet line))).filter
    (fun line => line.length > 0)

/-- An entry of the client search log (`SearchLogEntry` in src/app/page.tsx);
the `Date` timestamp is carried opaquely. -/
structure SearchLogEntry where
  query : String
  reason : String
  timestamp : Nat
deriving DecidableEq, Repr

/-- The `setSearchLog` updater used on the tool-call path and on the
two-part text path: skip when an entry with the same query and the same
reason exists, otherwise append. -/
def searchLogDedupUpdate (query reason : String) (now : Nat)
    (prev : List SearchLogEntry) : List SearchLogEntry :=
  if prev.any (fun e => e.query == query && e.reason == reason) then prev
  else prev ++ [{ query := query, reason := reason, timestamp := now }]

/-- The `setSearchLog` updater used on the single-part text path ("just
query, no reason"): the guard looks for an entry with the same query and a
falsy reason, then appends with reason `"No reason provided"`. -/
def searchLogSingleUpdate (query : String) (now : Nat)
    (prev : List SearchLogEntry) : List SearchLogEntry :=
  if prev.any (fun e => e.query == query && e.reason == "") then prev
  else prev ++ [{ query := query, reason := "No reason provided", timestamp := now }]

/-- Processing of one bullet line of the "Searches I ran" section: split on
every `-` or `:` character, trim the pieces; two or more pieces give a
(query, joined reason) entry, exactly one non-empty piece gives a
query-only entry. -/
def searchLineUpdate (line : List Char) (now : Nat)
    (prev : List SearchLogEntry) : List SearchLogEntry :=
  match (splitChars (fun c => c = '-' || c = ':') line).map trimJS with
  | [] => prev
  | [q] =>
    if q.isEmpty then prev
    else searchLogSingleUpdate (String.mk q) now prev
  | q :: rest =>
    searchLogDedupUpdate (String.mk q)
      (String.intercalate " - " (rest.map String.mk)) now prev

/-- The literal header `"Searches I ran"`. -/
def searchesHeader : List Char := "Searches I ran".toList

/-- The literal header `"Probably irrelevant but interesting"`. -/
def probablyHeader : List Char := "Probably irrelevant but interesting".toList

/-- Embedding of the "Extract search log entries from text" block of the
assistant-message effect: gated on the text containing `"Searches I ran"`,
the captured section's bullet lines update the search log in order. -/
def processTextSearchLog (t : String) (now : Nat)
    (log : List SearchLogEntry) : List SearchLogEntry :=
  if containsSub t.toList searchesHeader then
    match extractSection searchesHeader ["\n\n".toList] t.toList with
    | none => log
    | some body => (bulletItems body).foldl (fun acc line => searchLineUpdate line now acc) log
  else log

/-- Contribution of the "Probably irrelevant but interesting" block to the
side-quest counter: the number of bullet items of the captured section
(terminators `\n\n` and `\nSearches`), zero when the header is absent or
the regex does not capture. -/
def headerSideQuestContribution (t : String) : Nat :=
  if containsSub t.toList probablyHeader then
    match extractSection probablyHeader ["\n\n".toList, "\nSearches".toList] t.toList with
    | none => 0
    | some body => (bulletItems body).length
  else 0

/-- The three alternatives of `/got distracted|side quest|tangent/gi`, in
alternation order, lowercase. -/
def tangentPhrases : List (List Char) :=
  ["got distracted".toList, "side quest".toList, "tangent".toList]

/-- Global regex match count over an already-lowercased input: at each
position try the alternatives in order; on a match skip past it, otherwise
advance one character.  The fuel argument (initially the input length)
makes the recursion structural; each step consumes at least one character,
so the fuel never runs out first. -/
def countMatchesAux : Nat → List Char → Nat
  | 0, _ => 0
  | _, [] => 0
  | fuel + 1, c :: rest =>
    match tangentPhrases.find? (fun p => isPrefixList p (c :: rest)) with
    | some p => 1 + countMatchesAux fuel (List.drop (p.length - 1) rest)
    | none => countMatchesAux fuel rest

/-- The number of case-insensitive matches of
`/got distracted|side quest|tangent/gi` in `t`
(`text.match(...) || []).length`). -/
def countTangentMentions (t : String) : Nat :=
  countMatchesAux t.toList.length (t.toList.map Char.toLower)

/-- Contribution of the tangent-mention block to the side-quest counter:
gated on a case-sensitive `includes` of one of the three phrases, then
`Math.min(tangentMentions, 2)`. -/
def keywordMentionContribution (t : String) : Nat :=
  if containsSub t.toList "got distracted".toList ||
      containsSub t.toList "side quest".toList ||
      containsSub t.toList "tangent".toList then
    min (countTangentMentions t) 2
  else 0

/-- Total contribution of one assistant text part to the side-quest
counter: the header block runs first, then the keyword block; both add to
the same counter. -/
def sideQuestTextInc (t : String) : Nat :=
  headerSideQuestContribution t + keywordMentionContribution t

/-! ## Tool input schemas (zod `inputSchema` of the three sub-agent tools)

The schemas are declared in the source:
`factCheckTool.inputSchema = z.object({ researchNotes: z.string()... })`,
`findRandomTangentsTool.inputSchema = z.object({ mainTopic: z.string(), researchNotes: z.string() })`,
`summarizeTool.inputSchema = z.object({ factCheckedFindings: z.string(), originalQuestion: z.string().optional() })`.
Modelled from the spec: the validation step itself is performed by the ai
SDK tool layer before `execute` runs ("Tool boundary schema (must be
validated, rejecting malformed input before dispatch)"); zod object
parsing requires each non-optional field to be present with the declared
type and accepts an absent optional field. -/

/-- A JSON value as handed to a tool's input schema. -/
inductive JVal where
  | jnull
  | jbool (b : Bool)
  | jnum (n : Int)
  | jstr (s : String)
  | jarr (elems : List JVal)
  | jobj (fields : List (String × JVal))

/-- Field lookup: defined only on objects. -/
def getField (v : JVal) (key : String) : Option JVal :=
  match v with
  | .jobj fields => fields.lookup key
  | _ => none

/-- A present field parses as `z.string()` only when it is a string. -/
def asString : Option JVal → Option String
  | some (.jstr s) => some s
  | _ => none

/-- Parsed input of `factCheckTool`. -/
structure FactCheckInput where
  researchNotes : String
deriving DecidableEq, Repr

/-- Parsed input of `findRandomTangentsTool`. -/
structure TangentsInput where
  mainTopic : String
  researchNotes : String
deriving DecidableEq, Repr

/-- Parsed input of `summarizeTool`. -/
structure SummarizeInput where
  factCheckedFindings : String
  originalQuestion : Option String
deriving DecidableEq, Repr

/-- Validation of `factCheckTool.inputSchema`:
`z.object({ researchNotes: z.string() })`. -/
def factCheckValidate (v : JVal) : Option FactCheckInput :=
  match asString (getField v "researchNotes") with
  | some s => some { researchNotes := s }
  | none => none

/-- Validation of `findRandomTangentsTool.inputSchema`:
`z.object({ mainTopic: z.string(), researchNotes: z.string() })`. -/
def findRandomTangentsValidate (v : JVal) : Option TangentsInput :=
  match asString (getField v "mainTopic"), asString (getField v "researchNotes") with
  | some m, some r => some { mainTopic := m, researchNotes := r }
  | _, _ => none

/-- Validation of `summarizeTool.inputSchema`:
`z.object({ factCheckedFindings: z.string(), originalQuestion: z.string().optional() })`. -/
def summarizeValidate (v : JVal) : Option SummarizeInput :=
  match asString (getField v "factCheckedFindings") with
  | none => none
  | some f =>
    match getField v "originalQuestion" with
    | none => some { factCheckedFindings := f, originalQuestion := none }
    | some (.jstr q) => some { factCheckedFindings := f, originalQuestion := some q }
    | some _ => none

/-- Modelled from the spec: the tool layer validates the raw input against
the schema and invokes the wrapped sub-agent (`exec`, standing for the
tool's `execute` and the nested `generate` it performs) only on success. -/
def dispatchTool {α β : Type} (validate : JVal → Option α) (exec : α → β)
    (v : JVal) : Option β :=
  (validate v).map exec

/-! ## Theorems -/

theorem runToolLoopAux_rounds_le (oracle : Nat → ModelReply) :
    ∀ (fuel steps : Nat) (acc : String),
      (runToolLoopAux oracle steps fuel acc).rounds ≤ steps + fuel := by
  intro fuel
  induction fuel with
  | zero => intro steps acc; simp [runToolLoopAux]
  | succ n ih =>
    intro steps acc
    cases h : oracle steps with
    | finalText t =>
      simp [runToolLoopAux, h]
    | callTools calls t =>
      have hih := ih (steps + 1) (acc ++ t)
      have hstep : runToolLoopAux oracle steps (n + 1) acc =
          runToolLoopAux oracle (steps + 1) n (acc ++ t) := by
        simp [runToolLoopAux, h]
      rw [hstep]
      omega

theorem runToolLoopAux_hitBudget_rounds (oracle : Nat → ModelReply) :
    ∀ (fuel steps : Nat) (acc : String),
      (runToolLoopAux oracle steps fuel acc).hitBudget = true →
      (runToolLoopAux oracle steps fuel acc).rounds = steps + fuel := by
  intro fuel
  induction fuel with
  | zero => intro steps acc _; simp [runToolLoopAux]
  | succ n ih =>
    intro steps acc hb
    cases h : oracle steps with
    | finalText t =>
      simp [runToolLoopAux, h] at hb
    | callTools calls t =>
      have hih := ih (steps + 1) (acc ++ t)
      have hstep : runToolLoopAux oracle steps (n + 1) acc =
          runToolLoopAux oracle (steps + 1) n (acc ++ t) := by
        simp [runToolLoopAux, h]
      rw [hstep] at hb ⊢
      have := hih hb
      omega

/-- C1: every agent loop is bounded by its step budget — an orchestrator
run performs at most 15 model round-trips, each sub-agent run at most 5,
whatever the model oracle does; and reaching the budget terminates the
loop normally (with exactly the budgeted number of round-trips and a
`RunResult`, a type with no error constructor) rather than raising an
error. -/
theorem agent_step_budgets (o1 o2 o3 o4 : Nat → ModelReply) :
    (runChatAgentLoop o1).rounds ≤ 15 ∧
    (runFactCheckerLoop o2).rounds ≤ 5 ∧
    (runSummarizerLoop o3).rounds ≤ 5 ∧
    (runRandomTangentsLoop o4).rounds ≤ 5 ∧
    ((runChatAgentLoop o1).hitBudget = true → (runChatAgentLoop o1).rounds = 15) := by
  refine ⟨?_, ?_, ?_, ?_, ?_⟩
  · simpa using runToolLoopAux_rounds_le o1 15 0 ""
  · simpa using runToolLoopAux_rounds_le o2 5 0 ""
  · simpa using runToolLoopAux_rounds_le o3 5 0 ""
  · simpa using runToolLoopAux_rounds_le o4 5 0 ""
  · intro hb
    simpa using runToolLoopAux_hitBudget_rounds o1 15 0 "" (by simpa using hb)

/-- Witness for C1: a model oracle that never finishes makes the
orchestrator loop hit its budget after exactly 15 round-trips. -/
theorem agent_step_budgets_witness :
    (runChatAgentLoop fun _ => ModelReply.callTools ["tavilySearch"] "").rounds = 15 :=
  (agent_step_budgets (fun _ => ModelReply.callTools ["tavilySearch"] "")
      (fun _ => ModelReply.finalText "") (fun _ => ModelReply.finalText "")
      (fun _ => ModelReply.finalText "")).2.2.2.2 (by rfl)

theorem advancesTo_rank_lt :
    ∀ s s' : ToolPartState, advancesTo s s' = true → stateRank s < stateRank s' := by
  intro s s'
  cases s <;> cases s' <;> intro h <;> simp [advancesTo] at h <;> decide

/-- C2: a tool-call part's state advances only forward along the lifecycle
path `input-streaming → input-available → (output-available | output-error)`:
every sequence of states linked by allowed advances is strictly increasing
in path position (so no state, in particular no earlier state, is ever
revisited), and no advance leaves `output-available` or `output-error`. -/
theorem toolcall_state_machine_monotone :
    (∀ l : List ToolPartState,
        List.Chain' (fun a b => advancesTo a b = true) l →
        List.Pairwise (fun a b => stateRank a < stateRank b) l) ∧
    (∀ s, advancesTo ToolPartState.outputAvailable s = false) ∧
    (∀ s, advancesTo ToolPartState.outputError s = false) := by
  refine ⟨?_, by intro s; cases s <;> rfl, by intro s; cases s <;> rfl⟩
  intro l hl
  haveI : IsTrans ToolPartState (fun a b => stateRank a < stateRank b) :=
    ⟨fun _ _ _ hab hbc => Nat.lt_trans hab hbc⟩
  exact List.chain'_iff_pairwise.mp
    (List.Chain'.imp (fun a b h => advancesTo_rank_lt a b h) hl)

/-- Witness for C2: the full lifecycle run is an allowed chain, hence its
states are pairwise strictly ordered along the path. -/
theorem toolcall_state_machine_monotone_witness :
    List.Pairwise (fun a b => stateRank a < stateRank b)
      [ToolPartState.inputStreaming, ToolPartState.inputAvailable,
        ToolPartState.outputAvailable] :=
  toolcall_state_machine_monotone.1 _
    (by simp [List.chain'_cons, List.chain'_singleton, advancesTo])

theorem dedupeByUrlAux_filter_of_seen (u : String) :
    ∀ (l : List SourceInfo) (seen : List String), seenHas u seen = true →
      (dedupeByUrlAux seen l).filter (fun s => s.url == u) = [] := by
  intro l
  induction l with
  | nil => intro seen _; simp [dedupeByUrlAux]
  | cons s rest ih =>
    intro seen h
    cases hs : seenHas s.url seen with
    | true => simpa [dedupeByUrlAux, hs] using ih seen h
    | false =>
      have hne : (s.url == u) = false := by
        cases hbe : s.url == u with
        | false => rfl
        | true =>
          rw [eq_of_beq hbe] at hs
          rw [h] at hs
          exact hs
      simp only [dedupeByUrlAux, hs, Bool.false_eq_true, if_false, List.filter_cons, hne]
      exact ih (s.url :: seen) (by simp [seenHas, h])

theorem dedupeByUrlAux_filter_find (u : String) :
    ∀ (l : List SourceInfo) (seen : List String) (e : SourceInfo),
      seenHas u seen = false →
      l.find? (fun s => s.url == u) = some e →
      (dedupeByUrlAux seen l).filter (fun s => s.url == u) = [e] := by
  intro l
  induction l with
  | nil => intro seen e _ hf; simp [List.find?] at hf
  | cons s rest ih =>
    intro seen e hseen hf
    cases hsu : s.url == u with
    | true =>
      have he : s = e := by simpa [List.find?, hsu] using hf
      have hnotseen : seenHas s.url seen = false := by
        rw [eq_of_beq hsu]; exact hseen
      subst he
      simp only [dedupeByUrlAux, hnotseen, Bool.false_eq_true, if_false,
        List.filter_cons, hsu, if_true]
      rw [dedupeByUrlAux_filter_of_seen u rest (s.url :: seen) (by simp [seenHas, hsu])]
    | false =>
      have hf' : rest.find? (fun x => x.url == u) = some e := by
        simpa [List.find?, hsu] using hf
      cases hs : seenHas s.url seen with
      | true => simpa [dedupeByUrlAux, hs] using ih seen e hseen hf'
      | false =>
        simp only [dedupeByUrlAux, hs, Bool.false_eq_true, if_false,
          List.filter_cons, hsu]
        exact ih (s.url :: seen) e (by simp [seenHas, hsu, hseen]) hf'

/-- C3: the reconstructed source list is deduplicated by URL with the
first-seen title winning — whenever the sources collected from a message's
parts (in part order) contain an entry for URL `u`, and `e` is the first
such entry, the output of `extractSourcesFromMessage` contains exactly the
single entry `e` for `u`, carrying the first occurrence's title. -/
theorem extractSources_dedup_first (m : UIMessage) (u : String) (e : SourceInfo)
    (h : (messageRawSources m).find? (fun s => s.url == u) = some e) :
    (extractSourcesFromMessage m).filter (fun s => s.url == u) = [e] :=
  dedupeByUrlAux_filter_find u (messageRawSources m) [] e rfl h

/-- Witness for C3: a tavily tool output and a later source-url part cite
the same URL with different titles; the extracted list keeps exactly one
entry with the first title. -/
theorem extractSources_dedup_first_witness :
    (extractSourcesFromMessage
        { id := "m1", role := "assistant",
          parts := [UIPart.tool "tavilySearch" ToolPartState.outputAvailable
              (ToolOutput.withResults [{ url := "https://a.example", title := "First" }]),
            UIPart.sourceUrl "https://a.example" "Second"] }).filter
        (fun s => s.url == "https://a.example") =
      [{ url := "https://a.example", title := "First" }] :=
  extractSources_dedup_first _ "https://a.example" _ (by decide)

theorem pushActivities_filter (l : List UIPart) :
    pushActivities (l.filter activeToolFilter) =
      (l.filter claimInFlight).map claimPartLabel := by
  induction l with
  | nil => rfl
  | cons p rest ih =>
    cases p with
    | tool n s o =>
      cases s <;>
        simp [activeToolFilter, claimInFlight, pushActivities, isInputState,
          claimPartLabel, activityDisplayName, claimDisplayName, List.filter_cons, ih]
    | text t => simpa [activeToolFilter, claimInFlight, List.filter_cons] using ih
    | sourceUrl u ti => simpa [activeToolFilter, claimInFlight, List.filter_cons] using ih
    | stepStart => simpa [activeToolFilter, claimInFlight, List.filter_cons] using ih

/-- C8: the current-activity labels are exactly one label per tool part of
the last message whose state is `input-streaming` or `input-available` —
tool parts of earlier messages and parts in terminal states contribute
nothing — with `tavilySearch ↦ "Searching web"`, `factCheck ↦ "Fact-checking"`,
`summarize ↦ "Summarizing"`, `findRandomTangents ↦ "Finding tangents"`, any
other tool name passing through unchanged, and the empty message list
yielding the empty list. -/
theorem currentToolActivity_matches_claim (messages : List UIMessage) :
    getCurrentToolActivity messages = getCurrentToolActivityClaim messages := by
  unfold getCurrentToolActivity getCurrentToolActivityClaim
  cases messages.getLast? with
  | none => rfl
  | some m => exact pushActivities_filter m.parts

/-- C6: each sub-agent tool's input schema rejects an input missing a
required field — `researchNotes` for `factCheck`, `mainTopic` and
`researchNotes` for `findRandomTangents`, `factCheckedFindings` for
`summarize` — while `summarize` accepts an absent `originalQuestion`; and
whenever validation fails the wrapped sub-agent (`exec`) is never invoked:
the dispatch yields `none` without applying it. -/
theorem tool_input_schemas_reject (v : JVal) :
    (getField v "researchNotes" = none → factCheckValidate v = none) ∧
    (getField v "mainTopic" = none → findRandomTangentsValidate v = none) ∧
    (getField v "researchNotes" = none → findRandomTangentsValidate v = none) ∧
    (getField v "factCheckedFindings" = none → summarizeValidate v = none) ∧
    (∀ s, summarizeValidate (JVal.jobj [("factCheckedFindings", JVal.jstr s)]) =
        some { factCheckedFindings := s, originalQuestion := none }) ∧
    (∀ (β : Type) (exec : FactCheckInput → β), factCheckValidate v = none →
        dispatchTool factCheckValidate exec v = none) ∧
    (∀ (β : Type) (exec : TangentsInput → β), findRandomTangentsValidate v = none →
        dispatchTool findRandomTangentsValidate exec v = none) ∧
    (∀ (β : Type) (exec : SummarizeInput → β), summarizeValidate v = none →
        dispatchTool summarizeValidate exec v = none) := by
  refine ⟨?_, ?_, ?_, ?_, ?_, ?_, ?_, ?_⟩
  · intro h; simp [factCheckValidate, h, asString]
  · intro h; simp [findRandomTangentsValidate, h, asString]
  · intro h; simp [findRandomTangentsValidate, h, asString]
  · intro h; simp [summarizeValidate, h, asString]
  · intro s; rfl
  · intro β exec h; simp [dispatchTool, h]
  · intro β exec h; simp [dispatchTool, h]
  · intro β exec h; simp [dispatchTool, h]

/-- Witness for C6: concrete malformed inputs (an empty object; an object
with only `mainTopic`) are rejected and the dispatch never reaches the
sub-agent. -/
theorem tool_input_schemas_reject_witness :
    factCheckValidate (JVal.jobj []) = none ∧
    findRandomTangentsValidate (JVal.jobj [("mainTopic", JVal.jstr "octopus")]) = none ∧
    summarizeValidate (JVal.jobj []) = none ∧
    dispatchTool factCheckValidate (fun i => i.researchNotes) (JVal.jobj []) = none :=
  ⟨(tool_input_schemas_reject (JVal.jobj [])).1 rfl,
    (tool_input_schemas_reject (JVal.jobj [("mainTopic", JVal.jstr "octopus")])).2.2.1 rfl,
    (tool_input_schemas_reject (JVal.jobj [])).2.2.2.1 rfl,
    (tool_input_schemas_reject (JVal.jobj [])).2.2.2.2.2.1 String (fun i => i.researchNotes)
      ((tool_input_schemas_reject (JVal.jobj [])).1 rfl)⟩

/-- C7: the abort signal received by each sub-agent tool's `execute` is the
very signal passed to the nested sub-agent's `generate` call, for the
fact-checker, the random-tangents agent and the summarizer alike. -/
theorem abort_signal_propagates (mainTopic researchNotes factCheckedFindings : String)
    (originalQuestion : Option String) (sig : Option AbortToken) :
    (factCheckExecuteGenerateCall researchNotes sig).abortSignal = sig ∧
    (findRandomTangentsExecuteGenerateCall mainTopic researchNotes sig).abortSignal = sig ∧
    (summarizeExecuteGenerateCall factCheckedFindings originalQuestion sig).abortSignal = sig :=
  ⟨rfl, rfl, rfl⟩

/-- Counterexample to C4 as stated: when the body processing throws an
error carrying internal diagnostic detail, the handler returns that very
detail as the error message — not a generic message. -/
theorem post_error_message_not_generic :
    POSTRoute (Except.error { message := "connect ECONNREFUSED 10.0.0.5:443" }) =
      PostResponse.json "connect ECONNREFUSED 10.0.0.5:443" 500 ∧
    "connect ECONNREFUSED 10.0.0.5:443" ≠ "Internal server error" := by
  constructor
  · rfl
  · decide

/-- C4 amended: a request whose processing throws before streaming starts
gets a non-streamed JSON error response with status 500 (a non-success
code); its message is the thrown error's own message when that is
non-empty — so internal diagnostic detail is leaked — and the generic
`"Internal server error"` only when the thrown message is empty. -/
theorem post_error_response_shape (e : JsError) :
    (∀ msgs, POSTRoute (Except.error e) ≠ PostResponse.stream msgs) ∧
    (e.message ≠ "" → POSTRoute (Except.error e) = PostResponse.json e.message 500) ∧
    (e.message = "" → POSTRoute (Except.error e) =
        PostResponse.json "Internal server error" 500) := by
  refine ⟨?_, ?_, ?_⟩
  · intro msgs; simp [POSTRoute]
  · intro h; simp [POSTRoute, jsOr, h]
  · intro h; simp [POSTRoute, jsOr, h]

/-- Witness for C4 amended: a concrete thrown error is returned verbatim
with status 500. -/
theorem post_error_response_shape_witness :
    POSTRoute (Except.error { message := "boom" }) = PostResponse.json "boom" 500 :=
  (post_error_response_shape { message := "boom" }).2.1 (by decide)

/-- Counterexample to C5 as stated: a finalized text containing none of the
markers named by the claim — `"Searches I ran"`, `"Random Tangents"`, or
the distraction phrases `"got distracted"`, `"side quest"`, `"tangent"`
(even case-insensitively) — still increments the tangent counter by 1,
because the code's actual header marker is
`"Probably irrelevant but interesting"`. -/
theorem sidequest_marker_counterexample :
    containsSub ("Probably irrelevant but interesting:\n- neat fact").toList
        searchesHeader = false ∧
    containsSub ("Probably irrelevant but interesting:\n- neat fact").toList
        ("Random Tangents").toList = false ∧
    containsSub ("Probably irrelevant but interesting:\n- neat fact").toList
        ("got distracted").toList = false ∧
    containsSub ("Probably irrelevant but interesting:\n- neat fact").toList
        ("side quest").toList = false ∧
    containsSub ("Probably irrelevant but interesting:\n- neat fact").toList
        ("tangent").toList = false ∧
    countTangentMentions "Probably irrelevant but interesting:\n- neat fact" = 0 ∧
    sideQuestTextInc "Probably irrelevant but interesting:\n- neat fact" = 1 ∧
    processTextSearchLog "Probably irrelevant but interesting:\n- neat fact" 0 [] = [] := by
  decide

/-- C5 amended: the client derives the search log and the tangent counter
by scanning finalized text for the literal markers actually used by the
code — `"Searches I ran"` for the search log, and
`"Probably irrelevant but interesting"` together with the distraction
phrases `"got distracted"`, `"side quest"`, `"tangent"` (case-sensitive
gate) for the counter.  Text containing none of those markers contributes
nothing to either. -/
theorem text_markers_amended (t : String) (now : Nat) (log : List SearchLogEntry)
    (h1 : containsSub t.toList probablyHeader = false)
    (h2 : containsSub t.toList ("got distracted").toList = false)
    (h3 : containsSub t.toList ("side quest").toList = false)
    (h4 : containsSub t.toList ("tangent").toList = false)
    (h5 : containsSub t.toList searchesHeader = false) :
    sideQuestTextInc t = 0 ∧ processTextSearchLog t now log = log := by
  constructor
  · unfold sideQuestTextInc headerSideQuestContribution keywordMentionContribution
    rw [h1, h2, h3, h4]
    rfl
  · unfold processTextSearchLog
    rw [h5]
    rfl

/-- Witness for C5 amended: a plain answer text with no markers leaves both
the counter contribution and the search log untouched. -/
theorem text_markers_amended_witness :
    sideQuestTextInc "The capital of Lebanon is Beirut." = 0 ∧
    processTextSearchLog "The capital of Lebanon is Beirut." 0 [] = [] :=
  text_markers_amended "The capital of Lebanon is Beirut." 0 []
    (by decide) (by decide) (by decide) (by decide) (by decide)

/-- C9: re-processing the same `Searches I ran` section with a query-only
bullet line adds a duplicate entry — the single-query update's guard looks
for an entry with an empty reason while inserting the reason
`"No reason provided"`, so the guard can never match what it inserts and
the (query, reason) deduplication invariant is violated. -/
theorem searchlog_single_line_duplicates :
    processTextSearchLog "Searches I ran:\n- lebanon" 0
        (processTextSearchLog "Searches I ran:\n- lebanon" 0 []) =
      [{ query := "lebanon", reason := "No reason provided", timestamp := 0 },
        { query := "lebanon", reason := "No reason provided", timestamp := 0 }] ∧
    ¬ List.Pairwise
        (fun a b : SearchLogEntry => ¬(a.query = b.query ∧ a.reason = b.reason))
        (processTextSearchLog "Searches I ran:\n- lebanon" 0
          (processTextSearchLog "Searches I ran:\n- lebanon" 0 [])) := by
  constructor
  · decide
  · decide

/-- Counterexample to C10 as stated: a text whose only phrase occurrence is
capitalized fails the case-sensitive `includes` gate, so this rule adds
nothing even though the case-insensitive match count is 1 — the increment
is not `min(matches, 2)`. -/
theorem keyword_count_counterexample :
    keywordMentionContribution "Tangent time" = 0 ∧
    countTangentMentions "Tangent time" = 1 ∧
    keywordMentionContribution "Tangent time" ≠
      min (countTangentMentions "Tangent time") 2 := by
  decide

/-- C10 amended: when the text contains one of `"got distracted"`,
`"side quest"`, `"tangent"` case-sensitively, the keyword rule's increment
is the minimum of the case-insensitive match count and 2; otherwise it is
0.  In both cases the contribution of a single text part through this rule
never exceeds 2. -/
theorem keyword_count_amended (t : String) :
    keywordMentionContribution t ≤ 2 ∧
    ((containsSub t.toList ("got distracted").toList ||
        containsSub t.toList ("side quest").toList ||
        containsSub t.toList ("tangent").toList) = true →
      keywordMentionContribution t = min (countTangentMentions t) 2) ∧
    ((containsSub t.toList ("got distracted").toList ||
        containsSub t.toList ("side quest").toList ||
        containsSub t.toList ("tangent").toList) = false →
      keywordMentionContribution t = 0) := by
  refine ⟨?_, ?_, ?_⟩
  · unfold keywordMentionContribution
    split
    · exact min_le_right _ _
    · exact Nat.zero_le 2
  · intro h
    unfold keywordMentionContribution
    rw [h]
    rfl
  · intro h
    unfold keywordMentionContribution
    rw [h]
    rfl

/-- Witness for C10 amended: three lowercase phrase occurrences still add
only 2. -/
theorem keyword_count_amended_witness :
    keywordMentionContribution "side quest, then a tangent, then I got distracted" =
      min (countTangentMentions "side quest, then a tangent, then I got distracted") 2 ∧
    keywordMentionContribution "side quest, then a tangent, then I got distracted" ≤ 2 :=
  ⟨(keyword_count_amended "side quest, then a tangent, then I got distracted").2.1
      (by decide),
    (keyword_count_amended "side quest, then a tangent, then I got distracted").1⟩

end Research
